import Mathlib

/-!
Verification of the tryio library (src/index.ts and src/promises/index.ts).

The library consists of three wrapper functions — tryAsync, tryPromise and
trySync — that turn exception-based control flow into a result tuple
[value, error].  This file gives a shallow embedding of the JavaScript
semantics the wrappers rely on (runtime values, try/catch, promise
settlement) and proves the claimed properties about the wrappers.
-/

namespace Tryio

/-- JavaScript Error object, modelled by its message string.  The constructor
call `new Error(m)` builds `⟨m⟩`; an Error that is passed through unchanged is
the very same structure value, while re-wrapping it would go through the
string coercion and change the message. -/
structure JSError where
  message : String
deriving DecidableEq

/-- JavaScript runtime values as far as the library can observe them: the null
and undefined sentinels, booleans, (integer) numbers, strings, and Error
objects.  Any of these can be raised as a fault (`throw "oops"`, `throw 3`,
`throw new Error(...)`) or produced as a success value. -/
inductive JSVal where
  | nullV : JSVal
  | undefV : JSVal
  | boolV : Bool → JSVal
  | numV : Int → JSVal
  | strV : String → JSVal
  | errV : JSError → JSVal
deriving DecidableEq

/-- JavaScript coercion `String(x)` on the modelled values. -/
def jsString : JSVal → String
  | .nullV => "null"
  | .undefV => "undefined"
  | .boolV true => "true"
  | .boolV false => "false"
  | .numV n => toString n
  | .strV s => s
  | .errV e => if e.message = "" then "Error" else "Error: " ++ e.message

/-- JavaScript test `x instanceof Error`. -/
def JSVal.instanceofError : JSVal → Bool
  | .errV _ => true
  | _ => false

/-- Outcome of running a piece of JavaScript code, or of a promise settling:
normal completion with a value, or a raised fault / rejection reason. -/
inductive Outcome (α : Type) where
  | ok : α → Outcome α
  | raise : JSVal → Outcome α
deriving DecidableEq

/-- Sequencing inside a try block: a pure step after a possibly-faulting one;
a raised fault propagates past the rest of the block. -/
def Outcome.map (f : α → β) : Outcome α → Outcome β
  | .ok v => .ok (f v)
  | .raise e => .raise e

/-- Semantics of a `try { ... } catch (error) { ... }` statement: a fault
raised by the body transfers control to the handler with the fault as
argument; a normal completion of the body skips the handler. -/
def tryCatch (body : Outcome α) (handler : JSVal → Outcome α) : Outcome α :=
  match body with
  | .ok v => .ok v
  | .raise e => handler e

/-- Behaviour of a zero-argument function argument of tryAsync: invoking it
either throws synchronously before ever producing a promise, or returns a
promise that settles with the given outcome. -/
inductive AsyncFn (α : Type) where
  | throws : JSVal → AsyncFn α
  | returns : Outcome α → AsyncFn α
deriving DecidableEq

/-- The step `await fn()` on an `AsyncFn`: a synchronous throw of `fn()` and a
rejection of the returned promise both surface as a raised fault at the await
site, inside the enclosing try block. -/
def AsyncFn.invokeAwait : AsyncFn α → Outcome α
  | .throws e => .raise e
  | .returns s => s

/-- tryAsync from src/index.ts, on the dynamic value domain.  Body:
`try { const result = await fn(); return [result, null]; }
 catch (error) { const err = error instanceof Error ? error :
 new Error(String(error)); return [null, err]; }`.
The returned `Outcome` is the settlement of the promise tryAsync returns. -/
def tryAsync (fn : AsyncFn JSVal) : Outcome (JSVal × JSVal) :=
  tryCatch ((fn.invokeAwait).map fun result => (result, JSVal.nullV))
    (fun error =>
      .ok (JSVal.nullV,
        if error.instanceofError then error else .errV ⟨jsString error⟩))

/-- tryPromise (named export) from src/index.ts.  Body:
`try { const result = await promise; return [result, null]; }
 catch (error) { const err = error instanceof Error ? error :
 new Error(String(error)); return [null, err]; }`. -/
def tryPromise (promise : Outcome JSVal) : Outcome (JSVal × JSVal) :=
  tryCatch (promise.map fun result => (result, JSVal.nullV))
    (fun error =>
      .ok (JSVal.nullV,
        if error.instanceofError then error else .errV ⟨jsString error⟩))

/-- trySync from src/index.ts.  The argument is the outcome of invoking the
caller-supplied `fn` (normal return or synchronous throw).  Body:
`try { const result = fn(); return [result, null]; }
 catch (error) { const err = error instanceof Error ? error :
 new Error(String(error)); return [null, err]; }`. -/
def trySync (fn : Outcome JSVal) : Outcome (JSVal × JSVal) :=
  tryCatch (fn.map fun result => (result, JSVal.nullV))
    (fun error =>
      .ok (JSVal.nullV,
        if error.instanceofError then error else .errV ⟨jsString error⟩))

/-- tryPromise, the default export of src/promises/index.ts, transcribed
separately from its own source text (which duplicates the named export's
body verbatim). -/
def tryPromiseDefault (promise : Outcome JSVal) : Outcome (JSVal × JSVal) :=
  tryCatch (promise.map fun result => (result, JSVal.nullV))
    (fun error =>
      .ok (JSVal.nullV,
        if error.instanceofError then error else .errV ⟨jsString error⟩))

/-- The fault-normalization rule appearing in each catch clause:
`error instanceof Error ? error : new Error(String(error))` — pass Error
instances through unchanged, wrap anything else in a new Error whose message
is its string form. -/
def normalize (error : JSVal) : JSVal :=
  if error.instanceofError then error else .errV ⟨jsString error⟩

/-- A tuple slot is populated when it holds something other than the null
sentinel the wrappers place in the empty slot. -/
def populated (v : JSVal) : Prop := v ≠ JSVal.nullV

/-- Exactly one of the two slots of a result tuple is populated. -/
def exactlyOnePopulated (t : JSVal × JSVal) : Prop :=
  (populated t.1 ∧ ¬ populated t.2) ∨ (¬ populated t.1 ∧ populated t.2)

instance : DecidablePred populated := fun v =>
  inferInstanceAs (Decidable (v ≠ JSVal.nullV))

instance (t : JSVal × JSVal) : Decidable (exactlyOnePopulated t) :=
  inferInstanceAs (Decidable (_ ∨ _))

/-- Module-scope bindings of src/index.ts as a JavaScript runtime would hold
them.  The file declares no module-level mutable variable, so no call reads
or writes any entry. -/
def ModState : Type := List (String × JSVal)

/-- tryAsync with the module state threaded explicitly: the body of the source
function references no module-level binding, so the embedding neither
consults nor changes the state. -/
def tryAsyncSt (fn : AsyncFn JSVal) (s : ModState) :
    Outcome (JSVal × JSVal) × ModState :=
  (tryAsync fn, s)

/-- tryPromise with the module state threaded explicitly; the source body
references no module-level binding. -/
def tryPromiseSt (promise : Outcome JSVal) (s : ModState) :
    Outcome (JSVal × JSVal) × ModState :=
  (tryPromise promise, s)

/-- trySync with the module state threaded explicitly; the source body
references no module-level binding. -/
def trySyncSt (fn : Outcome JSVal) (s : ModState) :
    Outcome (JSVal × JSVal) × ModState :=
  (trySync fn, s)

/-- tryAsync instrumented with the invocation counter of its argument.  The
source body contains exactly one call site of `fn` — line 15, `await fn()` —
transcribed here as the single `+ 1` on the counter; no other step of the
body invokes `fn` or performs any effect of its own. -/
def tryAsyncCounted (fn : AsyncFn JSVal) (fnCalls : Nat) :
    Outcome (JSVal × JSVal) × Nat :=
  (tryCatch ((fn.invokeAwait).map fun result => (result, JSVal.nullV))
      (fun error =>
        .ok (JSVal.nullV,
          if error.instanceofError then error else .errV ⟨jsString error⟩)),
   fnCalls + 1)

/-- trySync instrumented with the invocation counter of its argument.  The
source body contains exactly one call site of `fn` — line 56, `fn()` —
transcribed as the single `+ 1` on the counter. -/
def trySyncCounted (fn : Outcome JSVal) (fnCalls : Nat) :
    Outcome (JSVal × JSVal) × Nat :=
  (tryCatch (fn.map fun result => (result, JSVal.nullV))
      (fun error =>
        .ok (JSVal.nullV,
          if error.instanceofError then error else .errV ⟨jsString error⟩)),
   fnCalls + 1)

/-- The normalized fault is never the null sentinel: the error slot of a
fault tuple is always populated. -/
theorem normalize_ne_null (e : JSVal) : normalize e ≠ JSVal.nullV := by
  cases e <;> simp [normalize, JSVal.instanceofError]

/-- C1: for every wrapper (tryAsync, tryPromise, trySync) and every value v,
a wrapped computation that succeeds with v yields the tuple (v, null): the
value slot holds v and the error slot is empty. -/
theorem C1_success_yields_value_and_null (v : JSVal) :
    tryAsync (.returns (.ok v)) = .ok (v, JSVal.nullV) ∧
    tryPromise (.ok v) = .ok (v, JSVal.nullV) ∧
    trySync (.ok v) = .ok (v, JSVal.nullV) :=
  ⟨rfl, rfl, rfl⟩

/-- C2: for every wrapper and every fault that is already an Error instance e,
a computation that throws or rejects with e yields (null, e) with the very
same error value e in the error slot, unchanged and not re-wrapped. -/
theorem C2_error_instance_passed_through (e : JSError) :
    tryAsync (.returns (.raise (.errV e))) = .ok (JSVal.nullV, .errV e) ∧
    tryAsync (.throws (.errV e)) = .ok (JSVal.nullV, .errV e) ∧
    tryPromise (.raise (.errV e)) = .ok (JSVal.nullV, .errV e) ∧
    trySync (.raise (.errV e)) = .ok (JSVal.nullV, .errV e) :=
  ⟨rfl, rfl, rfl, rfl⟩

/-- C3: for every wrapper and every raised fault x that is not an Error
instance, the result is (null, E) where E is an Error whose message is the
string form of x. -/
theorem C3_nonerror_wrapped_with_string_message (x : JSVal)
    (h : x.instanceofError = false) :
    tryAsync (.returns (.raise x)) = .ok (JSVal.nullV, .errV ⟨jsString x⟩) ∧
    tryPromise (.raise x) = .ok (JSVal.nullV, .errV ⟨jsString x⟩) ∧
    trySync (.raise x) = .ok (JSVal.nullV, .errV ⟨jsString x⟩) := by
  refine ⟨?_, ?_, ?_⟩ <;>
    simp [tryAsync, tryPromise, trySync, tryCatch, Outcome.map,
      AsyncFn.invokeAwait, h]

/-- C3 witness: the concrete scenario of the claim — rejecting with the plain
string "Invalid User ID format." resolves to (null, Error("Invalid User ID
format.")). -/
theorem C3_nonerror_wrapped_with_string_message_witness :
    JSVal.instanceofError (.strV "Invalid User ID format.") = false ∧
    tryAsync (.returns (.raise (.strV "Invalid User ID format."))) =
      .ok (JSVal.nullV, .errV ⟨"Invalid User ID format."⟩) :=
  ⟨rfl, (C3_nonerror_wrapped_with_string_message
    (.strV "Invalid User ID format.") rfl).1⟩

/-- C4: no wrapper ever raises a fault to its caller: for every behaviour of
the wrapped computation the result is a normal completion (tryAsync and
tryPromise resolve, trySync returns), never a raised fault. -/
theorem C4_wrappers_never_raise (fn : AsyncFn JSVal) (p sf : Outcome JSVal) :
    (∃ t, tryAsync fn = .ok t) ∧ (∃ t, tryPromise p = .ok t) ∧
    (∃ t, trySync sf = .ok t) := by
  refine ⟨?_, ?_, ?_⟩
  · cases fn with
    | throws e => exact ⟨_, rfl⟩
    | returns s => cases s <;> exact ⟨_, rfl⟩
  · cases p <;> exact ⟨_, rfl⟩
  · cases sf <;> exact ⟨_, rfl⟩

/-- C5 counterexample: a wrapped computation that succeeds with the value
null yields the tuple (null, null) — both slots empty — so a tuple with
exactly one populated slot is not what every possible computation produces. -/
theorem C5_counterexample :
    trySync (.ok JSVal.nullV) = .ok (JSVal.nullV, JSVal.nullV) ∧
    ¬ exactlyOnePopulated (JSVal.nullV, JSVal.nullV) :=
  ⟨rfl, by decide⟩

/-- C5 amended: every result tuple has at most one populated slot — a tuple
with both slots populated is never produced, and a populated error slot
forces an empty value slot — and a tuple with both slots empty occurs only
when the wrapped computation itself succeeded with the empty value null. -/
theorem C5_amended_at_most_one_populated
    (fn : AsyncFn JSVal) (p sf : Outcome JSVal) :
    (∃ t, tryAsync fn = .ok t ∧ ¬(populated t.1 ∧ populated t.2) ∧
      (¬ populated t.1 → ¬ populated t.2 →
        fn.invokeAwait = .ok JSVal.nullV)) ∧
    (∃ t, tryPromise p = .ok t ∧ ¬(populated t.1 ∧ populated t.2) ∧
      (¬ populated t.1 → ¬ populated t.2 → p = .ok JSVal.nullV)) ∧
    (∃ t, trySync sf = .ok t ∧ ¬(populated t.1 ∧ populated t.2) ∧
      (¬ populated t.1 → ¬ populated t.2 → sf = .ok JSVal.nullV)) := by
  refine ⟨?_, ?_, ?_⟩
  · cases fn with
    | throws e =>
      refine ⟨_, rfl, ?_, ?_⟩
      · rintro ⟨h1, _⟩; exact h1 rfl
      · intro _ h2
        exact absurd (show normalize e = JSVal.nullV from not_not.mp h2)
          (normalize_ne_null e)
    | returns s =>
      cases s with
      | ok v =>
        by_cases hv : v = JSVal.nullV
        · subst hv
          exact ⟨_, rfl, fun ⟨h1, _⟩ => h1 rfl, fun _ _ => rfl⟩
        · exact ⟨_, rfl, fun ⟨_, h2⟩ => h2 rfl, fun h1 _ => absurd hv h1⟩
      | raise e =>
        refine ⟨_, rfl, ?_, ?_⟩
        · rintro ⟨h1, _⟩; exact h1 rfl
        · intro _ h2
          exact absurd (show normalize e = JSVal.nullV from not_not.mp h2)
            (normalize_ne_null e)
  · cases p with
    | ok v =>
      by_cases hv : v = JSVal.nullV
      · subst hv
        exact ⟨_, rfl, fun ⟨h1, _⟩ => h1 rfl, fun _ _ => rfl⟩
      · exact ⟨_, rfl, fun ⟨_, h2⟩ => h2 rfl, fun h1 _ => absurd hv h1⟩
    | raise e =>
      refine ⟨_, rfl, ?_, ?_⟩
      · rintro ⟨h1, _⟩; exact h1 rfl
      · intro _ h2
        exact absurd (show normalize e = JSVal.nullV from not_not.mp h2)
          (normalize_ne_null e)
  · cases sf with
    | ok v =>
      by_cases hv : v = JSVal.nullV
      · subst hv
        exact ⟨_, rfl, fun ⟨h1, _⟩ => h1 rfl, fun _ _ => rfl⟩
      · exact ⟨_, rfl, fun ⟨_, h2⟩ => h2 rfl, fun h1 _ => absurd hv h1⟩
    | raise e =>
      refine ⟨_, rfl, ?_, ?_⟩
      · rintro ⟨h1, _⟩; exact h1 rfl
      · intro _ h2
        exact absurd (show normalize e = JSVal.nullV from not_not.mp h2)
          (normalize_ne_null e)

/-- C6: for every raised fault e, all three entry points (and both fault
paths of tryAsync) produce the very same error value, namely the one shared
normalization rule applied to e. -/
theorem C6_normalization_identical_across_wrappers (e : JSVal) :
    tryAsync (.returns (.raise e)) = .ok (JSVal.nullV, normalize e) ∧
    tryAsync (.throws e) = .ok (JSVal.nullV, normalize e) ∧
    tryPromise (.raise e) = .ok (JSVal.nullV, normalize e) ∧
    trySync (.raise e) = .ok (JSVal.nullV, normalize e) :=
  ⟨rfl, rfl, rfl, rfl⟩

/-- C7: the wrappers are deterministic and stateless: a call leaves the
module state unchanged, the result does not depend on the incoming state,
and a second call with the same argument from the state left by the first
produces an equal tuple. -/
theorem C7_deterministic_stateless (fn : AsyncFn JSVal) (p sf : Outcome JSVal)
    (s s₁ s₂ : ModState) :
    (tryAsyncSt fn s).2 = s ∧
    (tryAsyncSt fn s₁).1 = (tryAsyncSt fn s₂).1 ∧
    (tryAsyncSt fn ((tryAsyncSt fn s).2)).1 = (tryAsyncSt fn s).1 ∧
    (tryPromiseSt p s).2 = s ∧
    (tryPromiseSt p s₁).1 = (tryPromiseSt p s₂).1 ∧
    (tryPromiseSt p ((tryPromiseSt p s).2)).1 = (tryPromiseSt p s).1 ∧
    (trySyncSt sf s).2 = s ∧
    (trySyncSt sf s₁).1 = (trySyncSt sf s₂).1 ∧
    (trySyncSt sf ((trySyncSt sf s).2)).1 = (trySyncSt sf s).1 :=
  ⟨rfl, rfl, rfl, rfl, rfl, rfl, rfl, rfl, rfl⟩

/-- C8: tryAsync and trySync invoke their argument exactly once per call —
the instrumented run bumps the invocation counter by exactly one — and do
nothing else: the instrumented result coincides with the pure one. -/
theorem C8_fn_invoked_exactly_once (fn : AsyncFn JSVal) (sf : Outcome JSVal)
    (n m : Nat) :
    (tryAsyncCounted fn n).2 = n + 1 ∧
    (tryAsyncCounted fn n).1 = tryAsync fn ∧
    (trySyncCounted sf m).2 = m + 1 ∧
    (trySyncCounted sf m).1 = trySync sf :=
  ⟨rfl, rfl, rfl, rfl⟩

/-- C9: a function that throws synchronously, before ever producing a
promise, is still captured by tryAsync: the call resolves to
(null, normalize(e)) instead of letting the throw escape, because `fn()` is
invoked inside the try block. -/
theorem C9_sync_throw_captured_by_tryAsync (e : JSVal) :
    tryAsync (.throws e) = .ok (JSVal.nullV, normalize e) :=
  rfl

/-- C10: the default-exported tryPromise of src/promises/index.ts and the
named tryPromise of src/index.ts produce the same result tuple for every
settlement of the wrapped promise. -/
theorem C10_default_export_equals_named (p : Outcome JSVal) :
    tryPromiseDefault p = tryPromise p := by
  cases p <;> rfl

end Tryio
